import Mathlib

/-!
Verification of the checkout-to-download token lifecycle of the digital-goods
storefront backend (`main.py`).  The operations `checkout` and `download`
below are shallow embeddings of the handlers `checkout` (main.py:121-162) and
`download` (main.py:165-173); the document store is modelled as explicit
state, the wall-clock readings as string parameters (Python renders
`time.time()` and `datetime.now` into the derivation/record as text), and
`hashlib.sha256(...).hexdigest()` as an executable SHA-256 over UTF-8 bytes.
-/

set_option maxRecDepth 40000

namespace DigitalGoods

/-! ## SHA-256 (model of `hashlib.sha256(bytes).hexdigest()`) -/

/-- Truncation to a 32-bit word. -/
def w32 (n : Nat) : Nat := n % 4294967296

/-- Right rotation of a 32-bit word. -/
def rotr (n x : Nat) : Nat := w32 ((x >>> n) ||| (x <<< (32 - n)))

def bsig0 (x : Nat) : Nat := (rotr 2 x) ^^^ (rotr 13 x) ^^^ (rotr 22 x)

def bsig1 (x : Nat) : Nat := (rotr 6 x) ^^^ (rotr 11 x) ^^^ (rotr 25 x)

def ssig0 (x : Nat) : Nat := (rotr 7 x) ^^^ (rotr 18 x) ^^^ (x >>> 3)

def ssig1 (x : Nat) : Nat := (rotr 17 x) ^^^ (rotr 19 x) ^^^ (x >>> 10)

def chF (x y z : Nat) : Nat := (x &&& y) ^^^ ((x ^^^ 4294967295) &&& z)

def majF (x y z : Nat) : Nat := (x &&& y) ^^^ (x &&& z) ^^^ (y &&& z)

/-- The 64 round constants of FIPS 180-4 (decimal). -/
def sha256K : List Nat :=
  [1116352408, 1899447441, 3049323471, 3921009573,
   961987163, 1508970993, 2453635748, 2870763221,
   3624381080, 310598401, 607225278, 1426881987,
   1925078388, 2162078206, 2614888103, 3248222580,
   3835390401, 4022224774, 264347078, 604807628,
   770255983, 1249150122, 1555081692, 1996064986,
   2554220882, 2821834349, 2952996808, 3210313671,
   3336571891, 3584528711, 113926993, 338241895,
   666307205, 773529912, 1294757372, 1396182291,
   1695183700, 1986661051, 2177026350, 2456956037,
   2730485921, 2820302411, 3259730800, 3345764771,
   3516065817, 3600352804, 4094571909, 275423344,
   430227734, 506948616, 659060556, 883997877,
   958139571, 1322822218, 1537002063, 1747873779,
   1955562222, 2024104815, 2227730452, 2361852424,
   2428436474, 2756734187, 3204031479, 3329325298]

/-- The eight 32-bit working variables of the compression function. -/
structure Hash8 where
  a : Nat
  b : Nat
  c : Nat
  d : Nat
  e : Nat
  f : Nat
  g : Nat
  h : Nat
deriving DecidableEq

/-- Initial SHA-256 state (decimal). -/
def initH : Hash8 :=
  ⟨1779033703, 3144134277, 1013904242, 2773480762,
   1359893119, 2600822924, 528734635, 1541459225⟩

/-- Big-endian packing of bytes into 32-bit words. -/
def wordsOfBytes : List Nat → List Nat
  | b0 :: b1 :: b2 :: b3 :: rest =>
      ((b0 <<< 24) ||| (b1 <<< 16) ||| (b2 <<< 8) ||| b3) :: wordsOfBytes rest
  | _ => []

/-- Message-schedule extension; the accumulator holds the words newest-first. -/
def extSched : Nat → List Nat → List Nat
  | 0, acc => acc
  | n + 1, acc =>
      extSched n
        (w32 (ssig1 (acc.getD 1 0) + acc.getD 6 0 + ssig0 (acc.getD 14 0) + acc.getD 15 0) :: acc)

/-- One compression round. -/
def roundStep (st : Hash8) (kw : Nat × Nat) : Hash8 :=
  let t1 := w32 (st.h + bsig1 st.e + chF st.e st.f st.g + kw.1 + kw.2)
  let t2 := w32 (bsig0 st.a + majF st.a st.b st.c)
  ⟨w32 (t1 + t2), st.a, st.b, st.c, w32 (st.d + t1), st.e, st.f, st.g⟩

/-- Compression of one 64-byte block. -/
def compressBlock (st : Hash8) (block : List Nat) : Hash8 :=
  let w := (extSched 48 (wordsOfBytes block).reverse).reverse
  let fin := (sha256K.zip w).foldl roundStep st
  ⟨w32 (st.a + fin.a), w32 (st.b + fin.b), w32 (st.c + fin.c), w32 (st.d + fin.d),
   w32 (st.e + fin.e), w32 (st.f + fin.f), w32 (st.g + fin.g), w32 (st.h + fin.h)⟩

/-- 64-bit big-endian length field of the padding. -/
def lenBytes (n : Nat) : List Nat :=
  [(n >>> 56) % 256, (n >>> 48) % 256, (n >>> 40) % 256, (n >>> 32) % 256,
   (n >>> 24) % 256, (n >>> 16) % 256, (n >>> 8) % 256, n % 256]

/-- SHA-256 padding: a 0x80 byte, zeros to 56 mod 64, then the bit length. -/
def padMsg (msg : List Nat) : List Nat :=
  msg ++ (128 :: List.replicate ((119 - msg.length % 64) % 64) 0) ++ lenBytes (8 * msg.length)

/-- Split into 64-byte blocks; the fuel argument (any bound on the length)
makes the recursion structural. -/
def blocks : Nat → List Nat → List (List Nat)
  | 0, _ => []
  | _, [] => []
  | fuel + 1, l => l.take 64 :: blocks fuel (l.drop 64)

/-- Big-endian unpacking of one word into four bytes. -/
def wordBytes (x : Nat) : List Nat :=
  [(x >>> 24) % 256, (x >>> 16) % 256, (x >>> 8) % 256, x % 256]

/-- The 32-byte digest of a final state. -/
def stateBytes (s : Hash8) : List Nat :=
  wordBytes s.a ++ wordBytes s.b ++ wordBytes s.c ++ wordBytes s.d ++
  wordBytes s.e ++ wordBytes s.f ++ wordBytes s.g ++ wordBytes s.h

/-- SHA-256 of a byte string. -/
def sha256 (msg : List Nat) : List Nat :=
  let padded := padMsg msg
  stateBytes ((blocks padded.length padded).foldl compressBlock initH)

/-- The sixteen lowercase hex digits, as produced by Python's `hexdigest()`. -/
def hexChars : List Char := "0123456789abcdef".data

/-- Hex digit of a value below 16. -/
def hexChar (n : Nat) : Char :=
  if n = 0 then '0' else if n = 1 then '1' else if n = 2 then '2' else if n = 3 then '3'
  else if n = 4 then '4' else if n = 5 then '5' else if n = 6 then '6' else if n = 7 then '7'
  else if n = 8 then '8' else if n = 9 then '9' else if n = 10 then 'a' else if n = 11 then 'b'
  else if n = 12 then 'c' else if n = 13 then 'd' else if n = 14 then 'e' else 'f'

/-- Two lowercase hex digits of a byte. -/
def byteHex (b : Nat) : List Char := [hexChar (b / 16), hexChar (b % 16)]

/-- Lowercase hex encoding of a byte string. -/
def bytesHex (bs : List Nat) : List Char := (bs.map byteHex).flatten

/-- UTF-8 encoding of one code point (Python's `str.encode()`). -/
def utf8Bytes (c : Nat) : List Nat :=
  if c < 128 then [c]
  else if c < 2048 then [192 ||| (c >>> 6), 128 ||| (c &&& 63)]
  else if c < 65536 then
    [224 ||| (c >>> 12), 128 ||| ((c >>> 6) &&& 63), 128 ||| (c &&& 63)]
  else
    [240 ||| (c >>> 18), 128 ||| ((c >>> 12) &&& 63), 128 ||| ((c >>> 6) &&& 63),
     128 ||| (c &&& 63)]

/-- UTF-8 bytes of a string. -/
def strBytes (s : String) : List Nat := (s.data.map (fun c => utf8Bytes c.toNat)).flatten

/-- `hashlib.sha256(s.encode()).hexdigest()`. -/
def sha256hex (s : String) : String := ⟨bytesHex (sha256 (strBytes s))⟩

/-! ## String helpers used by the handlers

Python's `s[:10]`, `s.upper()` and ObjectId stringification act on the hex
output of `hexdigest()` resp. on validated hex identifiers, so case mapping
is modelled on the hex letters (the only letters these call sites can see). -/

/-- Prefix of the first `n` characters (`s[:n]`). -/
def strTake (s : String) (n : Nat) : String := ⟨s.data.take n⟩

/-- ASCII uppercase of one hex character (`str.upper` restricted to the
alphabet produced by `hexdigest()`). -/
def upChar (c : Char) : Char :=
  if c = 'a' then 'A' else if c = 'b' then 'B' else if c = 'c' then 'C'
  else if c = 'd' then 'D' else if c = 'e' then 'E' else if c = 'f' then 'F' else c

/-- `s.upper()` on a hex string. -/
def strUpper (s : String) : String := ⟨s.data.map upChar⟩

/-- ASCII lowercase of one hex character (`str(ObjectId(...))` renders the
identifier in canonical lowercase hex). -/
def downChar (c : Char) : Char :=
  if c = 'A' then 'a' else if c = 'B' then 'b' else if c = 'C' then 'c'
  else if c = 'D' then 'd' else if c = 'E' then 'e' else if c = 'F' then 'f' else c

/-- Canonical lowercase form of a hex identifier. -/
def strLower (s : String) : String := ⟨s.data.map downChar⟩

/-- The 22 characters accepted inside an ObjectId literal. -/
def hexAll : List Char := "0123456789abcdefABCDEF".data

/-- Is `c` a hex digit (either case)? -/
def isHexDigitB (c : Char) : Bool := decide (c ∈ hexAll)

/-- `bson.objectid.ObjectId(s)`: a string parses iff it is 24 hex characters;
the parsed identifier stringifies back to canonical lowercase.  `none` models
the `InvalidId` exception. -/
def parseOid (s : String) : Option String :=
  if s.data.length = 24 ∧ s.data.all isHexDigitB then some (strLower s) else none

/-! ## Data model (collections used by the core, from `schemas.py`/`main.py`)

Monetary amounts are modelled as rationals: the handler stores
`float(prod.get("price", 0))`, which is the identity on the numeric price the
product already holds, so no floating-point behaviour is observable here. -/

/-- A document of the `product` collection. -/
structure Product where
  title : String
  description : Option String
  price : Rat
  file_url : String
deriving DecidableEq

/-- A document of the `order` collection, as written by `checkout`
(main.py:139-148). -/
structure Order where
  product_id : String
  product_title : String
  buyer_email : String
  amount : Rat
  currency : String
  invoice_number : String
  download_url : String
  created_at : String
deriving DecidableEq

/-- The document store: the two collections reached by the core, plus the
supply of order identifiers the store assigns on insert. -/
structure Store where
  products : List (String × Product)
  orders : List Order
  nextOrderId : Nat
deriving DecidableEq

/-- Request body of `POST /checkout`. -/
structure CheckoutIn where
  product_id : String
  buyer_email : String
deriving DecidableEq

/-- Response model `OrderOut` of `POST /checkout`. -/
structure OrderOut where
  id : String
  invoice_number : String
  download_url : String
deriving DecidableEq

/-- A raised `HTTPException` (status code and detail). -/
structure HTTPError where
  statusCode : Nat
  detail : String
deriving DecidableEq

/-- How a handler call can fail: a raised `HTTPException`, or an unhandled
exception that surfaces as an internal server error. -/
inductive Failure where
  | http : HTTPError → Failure
  | raised : String → Failure
deriving DecidableEq

instance {ε α : Type} [DecidableEq ε] [DecidableEq α] : DecidableEq (Except ε α) := fun a b =>
  match a, b with
  | .error e, .error f =>
      if h : e = f then .isTrue (congrArg Except.error h)
      else .isFalse (fun hh => h (Except.error.inj hh))
  | .ok x, .ok y =>
      if h : x = y then .isTrue (congrArg Except.ok h)
      else .isFalse (fun hh => h (Except.ok.inj hh))
  | .error _, .ok _ => .isFalse (fun hh => Except.noConfusion hh)
  | .ok _, .error _ => .isFalse (fun hh => Except.noConfusion hh)

/-- `db["product"].find_one({"_id": oid})` for an already-parsed id `k`. -/
def Store.findProductByOid (st : Store) (k : String) : Option (String × Product) :=
  st.products.find? (fun q => q.1 == k)

/-- The guarded lookup of `checkout` (main.py:124-127): the `try`/`except`
collapses a malformed id and a missing product into the same `None`. -/
def Store.findProductByIdStr (st : Store) (s : String) : Option (String × Product) :=
  match parseOid s with
  | none => none
  | some k => st.findProductByOid k

/-- `db["order"].insert_one(order)`: appends the document and returns the
store-assigned identifier. -/
def Store.insertOrder (st : Store) (o : Order) : Store × String :=
  ({ st with orders := st.orders ++ [o], nextOrderId := st.nextOrderId + 1 },
   Nat.repr st.nextOrderId)

/-! ## The two core operations -/

/-- Invoice derivation (main.py:132-133): first 10 hex characters, uppercased,
of SHA-256 over the `"-"`-joined seed `buyer_email-time-product_id`. -/
def invoiceOf (buyer_email timeStr product_id : String) : String :=
  strUpper (strTake (sha256hex (buyer_email ++ "-" ++ timeStr ++ "-" ++ product_id)) 10)

/-- Token derivation (main.py:136): full SHA-256 hex digest of
`invoice_number-buyer_email`. -/
def tokenOf (invoice_number buyer_email : String) : String :=
  sha256hex (invoice_number ++ "-" ++ buyer_email)

/-- The `checkout` handler (main.py:121-162).  `timeStr` is the rendered
`time.time()` reading, `nowStr` the rendered `datetime.now(timezone.utc)`.
`send_email` only prints to the console, so of the notification dispatch we
model just whether it raises (`notifyOk = false`): the handler calls it with
no exception handling, after the insert.  The returned store is the state of
the document store when the handler finishes, successfully or not. -/
def checkout (st : Store) (payload : CheckoutIn) (timeStr nowStr : String)
    (notifyOk : Bool) : Store × Except Failure OrderOut :=
  match st.findProductByIdStr payload.product_id with
  | none => (st, .error (.http ⟨404, "Product not found"⟩))
  | some (pid, prod) =>
      let invoice_number := invoiceOf payload.buyer_email timeStr payload.product_id
      let token := tokenOf invoice_number payload.buyer_email
      let download_url := "/download/" ++ token
      let order : Order :=
        ⟨pid, prod.title, payload.buyer_email, prod.price, "USD",
         invoice_number, download_url, nowStr⟩
      let ins := st.insertOrder order
      if notifyOk then
        (ins.1, .ok ⟨ins.2, invoice_number, download_url⟩)
      else
        (ins.1, .error (.raised "send_email"))

/-- The `download` handler (main.py:165-173).  Note the `ObjectId` call on
the stored `product_id` is not guarded here: a parse failure is an unhandled
`InvalidId` exception, not a 404. -/
def download (st : Store) (token : String) : Store × Except Failure String :=
  match st.orders.find? (fun o => o.download_url == "/download/" ++ token) with
  | none => (st, .error (.http ⟨404, "Invalid token"⟩))
  | some o =>
      match parseOid o.product_id with
      | none => (st, .error (.raised "bson InvalidId"))
      | some k =>
          match st.findProductByOid k with
          | none => (st, .error (.http ⟨404, "Product missing"⟩))
          | some q => (st, .ok q.2.file_url)

/-- The order document `checkout` writes when its product lookup finds the
stored key `k` with product `prod` (abbreviation of main.py:139-148 used in
the lemmas below). -/
def mkOrder (k : String) (prod : Product) (p : CheckoutIn) (t n : String) : Order :=
  ⟨k, prod.title, p.buyer_email, prod.price, "USD",
   invoiceOf p.buyer_email t p.product_id,
   "/download/" ++ tokenOf (invoiceOf p.buyer_email t p.product_id) p.buyer_email, n⟩

/-- Modelled from the claim wording of C3, for comparison with the code's
derivation `invoiceOf`: SHA-256 over the plain (separator-free) concatenation
of buyer email, time and product id. -/
def plainConcatInvoice (buyer_email timeStr product_id : String) : String :=
  strUpper (strTake (sha256hex (buyer_email ++ timeStr ++ product_id)) 10)

/-! ## Concrete fixtures for witnesses and counterexamples -/

/-- A canonical 24-hex product key. -/
def pid0 : String := "507f1f77bcf86cd799439011"

def prod0 : Product := ⟨"Ebook", none, 10, "https://cdn/x.pdf"⟩

/-- A store holding one product and no orders. -/
def st0 : Store := ⟨[(pid0, prod0)], [], 0⟩

def payload0 : CheckoutIn := ⟨pid0, "a@b.com"⟩

/-- An order whose product has been deleted from the store (fixture for the
vanished-product lookup). -/
def ord9 : Order :=
  ⟨pid0, "Ebook", "a@b.com", 10, "USD", "D7D043807E", "/download/abc", "now"⟩

/-- A store holding `ord9` but no product. -/
def st9 : Store := ⟨[], [ord9], 1⟩

/-! ## Counting infrastructure for the invoice-collision argument

`invoiceOf` truncates the digest to 10 hex characters, so it takes at most
`16 ^ 10` values while ranging over unboundedly many time readings; the
definitions below decode such a truncated invoice into a number below
`16 ^ 10` and supply an unbounded family of pairwise distinct time strings. -/

/-- The 16 characters an uppercased hex digest can contain. -/
def uppAlph : List Char := "0123456789ABCDEF".data

/-- Numeric value of an uppercase hex digit. -/
def hexValU (c : Char) : Nat :=
  if c = '0' then 0 else if c = '1' then 1 else if c = '2' then 2 else if c = '3' then 3
  else if c = '4' then 4 else if c = '5' then 5 else if c = '6' then 6 else if c = '7' then 7
  else if c = '8' then 8 else if c = '9' then 9 else if c = 'A' then 10 else if c = 'B' then 11
  else if c = 'C' then 12 else if c = 'D' then 13 else if c = 'E' then 14
  else if c = 'F' then 15 else 0

/-- Big-endian numeric value of a hex string. -/
def decodeHex (l : List Char) : Nat := l.foldl (fun a c => 16 * a + hexValU c) 0

/-- The `i`-th of an unbounded family of pairwise distinct time readings
(`i` ones followed by `".0"`). -/
def timeSaltN (i : Nat) : String := String.mk (List.replicate i '1') ++ ".0"

/-- Validation of the SHA-256 model against the FIPS 180-4 test vector. -/
theorem sha256hex_abc :
    sha256hex "abc" = "ba7816bf8f01cfea414140de5dae2223b00361a396177a9cb410ff61f20015ad" := by
  decide

/-- Validation of the SHA-256 model on the empty message. -/
theorem sha256hex_empty :
    sha256hex "" = "e3b0c44298fc1c149afbf4c8996fb92427ae41e4649b934ca495991b7852b855" := by
  decide

/-- The derivations evaluated at a concrete input (values match
`hashlib.sha256` on the same seeds). -/
theorem derivations_concrete :
    invoiceOf "a@b.com" "1000.5" pid0 = "D7D043807E" ∧
    plainConcatInvoice "a@b.com" "1000.5" pid0 = "53DB8AAF67" ∧
    tokenOf "D7D043807E" "a@b.com" =
      "e5aa004d312d2059b1dd0332d6b9ffcdb0a72402e17d0f8e32e588027c522b76" ∧
    parseOid pid0 = some pid0 := by
  refine ⟨by decide, by decide, by decide, by decide⟩

/-! ## Helper lemmas -/

theorem download_fst (st : Store) (token : String) : (download st token).1 = st := by
  unfold download
  repeat' split
  all_goals rfl

theorem stateBytes_length (s : Hash8) : (stateBytes s).length = 32 := by
  simp [stateBytes, wordBytes]

theorem sha256_length (m : List Nat) : (sha256 m).length = 32 :=
  stateBytes_length _

theorem bytesHex_length (bs : List Nat) : (bytesHex bs).length = 2 * bs.length := by
  induction bs with
  | nil => rfl
  | cons b t ih =>
      simp only [bytesHex, List.map_cons, List.flatten_cons, List.length_append,
        List.length_cons] at ih ⊢
      simp [byteHex] at ih ⊢
      omega

theorem sha256hex_data_length (s : String) : (sha256hex s).data.length = 64 := by
  show (bytesHex (sha256 (strBytes s))).length = 64
  rw [bytesHex_length, sha256_length]

theorem hexChar_ge (n : Nat) (h : 16 ≤ n) : hexChar n = 'f' := by
  obtain ⟨k, rfl⟩ : ∃ k, n = k + 16 := ⟨n - 16, by omega⟩
  rfl

theorem hexChar_mem (n : Nat) : hexChar n ∈ hexChars := by
  rcases Nat.lt_or_ge n 16 with h | h
  · exact (by decide : ∀ m < 16, hexChar m ∈ hexChars) n h
  · rw [hexChar_ge n h]; decide

theorem sha256hex_mem (s : String) : ∀ c ∈ (sha256hex s).data, c ∈ hexChars := by
  intro c hc
  have hc2 : c ∈ bytesHex (sha256 (strBytes s)) := hc
  rw [bytesHex, List.mem_flatten] at hc2
  obtain ⟨l, hl, hcl⟩ := hc2
  rw [List.mem_map] at hl
  obtain ⟨b, _, rfl⟩ := hl
  simp only [byteHex, List.mem_cons, List.not_mem_nil, or_false] at hcl
  rcases hcl with h | h <;> exact h ▸ hexChar_mem _

theorem isHexDigitB_iff (c : Char) : isHexDigitB c = true ↔ c ∈ hexAll := by
  simp [isHexDigitB]

theorem hex_down_mem : ∀ c ∈ hexAll, downChar c ∈ hexAll := by decide

theorem hex_down_idem : ∀ c ∈ hexAll, downChar (downChar c) = downChar c := by decide

theorem parseOid_idem {s k : String} (h : parseOid s = some k) : parseOid k = some k := by
  unfold parseOid at h ⊢
  split at h
  case isTrue hv =>
    injection h with h
    subst h
    obtain ⟨hlen, hall⟩ := hv
    rw [List.all_eq_true] at hall
    have hlen2 : (strLower s).data.length = 24 := by simp [strLower, hlen]
    have hall2 : (strLower s).data.all isHexDigitB = true := by
      rw [List.all_eq_true]
      intro x hx
      have hx2 : x ∈ s.data.map downChar := hx
      rw [List.mem_map] at hx2
      obtain ⟨c, hc, rfl⟩ := hx2
      rw [isHexDigitB_iff]
      exact hex_down_mem c ((isHexDigitB_iff c).mp (hall c hc))
    have hidem : strLower (strLower s) = strLower s := by
      show String.mk ((s.data.map downChar).map downChar) = String.mk (s.data.map downChar)
      rw [List.map_map]
      congr 1
      apply List.map_congr_left
      intro a ha
      have : downChar (downChar a) = downChar a :=
        hex_down_idem a ((isHexDigitB_iff a).mp (hall a ha))
      simpa [Function.comp] using this
    rw [if_pos ⟨hlen2, hall2⟩, hidem]
  case isFalse => exact absurd h (by simp)

theorem findProductByIdStr_eq {st : Store} {s k : String} {prod : Product}
    (h : st.findProductByIdStr s = some (k, prod)) :
    parseOid s = some k ∧ st.findProductByOid k = some (k, prod) := by
  unfold Store.findProductByIdStr at h
  cases hp : parseOid s with
  | none =>
      rw [hp] at h
      exact Option.noConfusion h
  | some k0 =>
      rw [hp] at h
      have h2 : st.products.find? (fun q => q.1 == k0) = some (k, prod) := h
      have hkey : (fun q : String × Product => q.1 == k0) (k, prod) = true :=
        @List.find?_some (String × Product) (fun q => q.1 == k0) (k, prod) st.products h2
      have hk : k = k0 := by simpa using hkey
      subst hk
      exact ⟨rfl, h2⟩

/-- State effect of a `checkout` whose product lookup succeeds: exactly the
order document of main.py:139-148 is appended, whether or not the
notification dispatch then raises. -/
theorem checkout_found_fst (st : Store) (p : CheckoutIn) (t n : String) (b : Bool)
    (k : String) (prod : Product)
    (hfind : st.findProductByIdStr p.product_id = some (k, prod)) :
    (checkout st p t n b).1 =
      { products := st.products,
        orders := st.orders ++ [mkOrder k prod p t n],
        nextOrderId := st.nextOrderId + 1 } := by
  unfold checkout
  rw [hfind]
  cases b <;> rfl

/-- Response of a `checkout` whose product lookup succeeds and whose
notification dispatch does not raise. -/
theorem checkout_found_ok (st : Store) (p : CheckoutIn) (t n : String)
    (k : String) (prod : Product)
    (hfind : st.findProductByIdStr p.product_id = some (k, prod)) :
    (checkout st p t n true).2 =
      Except.ok
        ⟨Nat.repr st.nextOrderId, invoiceOf p.buyer_email t p.product_id,
         "/download/" ++ tokenOf (invoiceOf p.buyer_email t p.product_id) p.buyer_email⟩ := by
  unfold checkout
  rw [hfind]
  rfl

/-- Response of a `checkout` whose product lookup succeeds and whose
notification dispatch raises. -/
theorem checkout_found_err (st : Store) (p : CheckoutIn) (t n : String)
    (k : String) (prod : Product)
    (hfind : st.findProductByIdStr p.product_id = some (k, prod)) :
    (checkout st p t n false).2 = Except.error (.raised "send_email") := by
  unfold checkout
  rw [hfind]
  rfl

theorem mkOrder_product_id (k : String) (prod : Product) (p : CheckoutIn) (t n : String) :
    (mkOrder k prod p t n).product_id = k := rfl

theorem find?_append_none {α : Type} (p : α → Bool) (l1 l2 : List α)
    (h : l1.find? p = none) : (l1 ++ l2).find? p = l2.find? p := by
  rw [List.find?_append, h, Option.none_or]

/-- A `checkout` whose guarded product lookup yields nothing raises the 404
and leaves the store untouched. -/
theorem checkout_notfound_eq (st : Store) (p : CheckoutIn) (t n : String) (b : Bool)
    (hfind : st.findProductByIdStr p.product_id = none) :
    checkout st p t n b = (st, .error (.http ⟨404, "Product not found"⟩)) := by
  unfold checkout
  rw [hfind]

theorem string_eq_of_data {s u : String} (h : s.data = u.data) : s = u := by
  cases s
  cases u
  exact congrArg String.mk h

theorem upChar_mem : ∀ c ∈ hexChars, upChar c ∈ uppAlph := by decide

theorem hexValU_lt : ∀ c ∈ uppAlph, hexValU c < 16 := by decide

theorem hexValU_inj : ∀ c ∈ uppAlph, ∀ d ∈ uppAlph, hexValU c = hexValU d → c = d := by
  decide

theorem invoiceOf_data (e t pid : String) :
    (invoiceOf e t pid).data =
      ((sha256hex (e ++ "-" ++ t ++ "-" ++ pid)).data.take 10).map upChar := rfl

theorem invoiceOf_length (e t pid : String) : (invoiceOf e t pid).data.length = 10 := by
  rw [invoiceOf_data, List.length_map, List.length_take, sha256hex_data_length]
  decide

theorem invoiceOf_chars (e t pid : String) :
    ∀ c ∈ (invoiceOf e t pid).data, c ∈ uppAlph := by
  intro c hc
  rw [invoiceOf_data, List.mem_map] at hc
  obtain ⟨c0, hc0, rfl⟩ := hc
  exact upChar_mem c0 (sha256hex_mem _ c0 (List.take_subset _ _ hc0))

theorem foldl_hex_shift (l : List Char) (acc : Nat) :
    l.foldl (fun a c => 16 * a + hexValU c) acc =
      acc * 16 ^ l.length + l.foldl (fun a c => 16 * a + hexValU c) 0 := by
  induction l generalizing acc with
  | nil => simp
  | cons c tl ih =>
      rw [List.foldl_cons, List.foldl_cons, ih (16 * acc + hexValU c),
        ih (16 * 0 + hexValU c), List.length_cons]
      ring

theorem foldl_hex_lt (l : List Char) (h : ∀ c ∈ l, c ∈ uppAlph) :
    l.foldl (fun a c => 16 * a + hexValU c) 0 < 16 ^ l.length := by
  induction l with
  | nil => simp
  | cons c tl ih =>
      rw [List.foldl_cons, foldl_hex_shift, List.length_cons]
      have hv : hexValU c < 16 := hexValU_lt c (h c (by simp))
      have htl : tl.foldl (fun a c => 16 * a + hexValU c) 0 < 16 ^ tl.length :=
        ih (fun d hd => h d (by simp [hd]))
      calc (16 * 0 + hexValU c) * 16 ^ tl.length +
              tl.foldl (fun a c => 16 * a + hexValU c) 0
          < (16 * 0 + hexValU c) * 16 ^ tl.length + 16 ^ tl.length :=
            Nat.add_lt_add_left htl _
        _ = (hexValU c + 1) * 16 ^ tl.length := by ring
        _ ≤ 16 * 16 ^ tl.length := Nat.mul_le_mul_right _ (by omega)
        _ = 16 ^ (tl.length + 1) := by ring

theorem foldl_hex_inj (l1 : List Char) : ∀ l2 : List Char, l1.length = l2.length →
    (∀ c ∈ l1, c ∈ uppAlph) → (∀ c ∈ l2, c ∈ uppAlph) →
    l1.foldl (fun a c => 16 * a + hexValU c) 0 =
      l2.foldl (fun a c => 16 * a + hexValU c) 0 →
    l1 = l2 := by
  induction l1 with
  | nil =>
      intro l2 hlen _ _ _
      cases l2 with
      | nil => rfl
      | cons d t2 => exact absurd hlen (by simp)
  | cons c1 t1 ih =>
      intro l2 hlen h1 h2 heq
      cases l2 with
      | nil => exact absurd hlen (by simp)
      | cons c2 t2 =>
          have hlen2 : t1.length = t2.length := by simpa using hlen
          rw [List.foldl_cons, List.foldl_cons, foldl_hex_shift t1 _, foldl_hex_shift t2 _,
            hlen2] at heq
          have hF1 : t1.foldl (fun a c => 16 * a + hexValU c) 0 < 16 ^ t2.length := by
            rw [← hlen2]
            exact foldl_hex_lt t1 (fun d hd => h1 d (by simp [hd]))
          have hF2 : t2.foldl (fun a c => 16 * a + hexValU c) 0 < 16 ^ t2.length :=
            foldl_hex_lt t2 (fun d hd => h2 d (by simp [hd]))
          have hdiv : ∀ v F : Nat, F < 16 ^ t2.length →
              ((16 * 0 + v) * 16 ^ t2.length + F) / 16 ^ t2.length = v := by
            intro v F hF
            rw [Nat.mul_comm, Nat.mul_add_div (Nat.pos_pow_of_pos _ (by omega)),
              Nat.div_eq_of_lt hF]
            omega
          have hv : hexValU c1 = hexValU c2 := by
            have e1 := hdiv (hexValU c1) _ hF1
            have e2 := hdiv (hexValU c2) _ hF2
            rw [← e1, ← e2, heq]
          have hc : c1 = c2 :=
            hexValU_inj c1 (h1 c1 (by simp)) c2 (h2 c2 (by simp)) hv
          have hF : t1.foldl (fun a c => 16 * a + hexValU c) 0 =
              t2.foldl (fun a c => 16 * a + hexValU c) 0 := by
            rw [hv] at heq
            exact Nat.add_left_cancel heq
          rw [hc, ih t2 hlen2 (fun d hd => h1 d (by simp [hd]))
            (fun d hd => h2 d (by simp [hd])) hF]

theorem timeSaltN_inj {i j : Nat} (h : timeSaltN i = timeSaltN j) : i = j := by
  have h2 : i + 2 = j + 2 := by
    simpa [timeSaltN, String.data_append] using congrArg (fun s => s.data.length) h
  omega

/-! ## Claims -/

/-- C2: for every product_id that is malformed (not parseable as a store key)
or that matches no product in the store, `checkout` fails with the 404
"Product not found" error — both causes surfacing identically — and the store
(in particular the order collection) is returned unchanged. -/
theorem C2_checkout_not_found (st : Store) (p : CheckoutIn) (t n : String) (b : Bool)
    (h : parseOid p.product_id = none ∨
         ∀ k, parseOid p.product_id = some k → st.findProductByOid k = none) :
    checkout st p t n b = (st, .error (.http ⟨404, "Product not found"⟩)) := by
  have hfind : st.findProductByIdStr p.product_id = none := by
    unfold Store.findProductByIdStr
    rcases h with h | h
    · rw [h]
    · cases hp : parseOid p.product_id with
      | none => rfl
      | some k => exact h k hp
  exact checkout_notfound_eq st p t n b hfind

/-- Witness for C2 at the malformed id `"zz"` against the concrete store. -/
theorem C2_checkout_not_found_witness :
    (parseOid "zz" = none ∨
      ∀ k, parseOid "zz" = some k → st0.findProductByOid k = none) ∧
    checkout st0 ⟨"zz", "a@b.com"⟩ "1000.5" "now" true =
      (st0, .error (.http ⟨404, "Product not found"⟩)) :=
  ⟨Or.inl (by decide),
   C2_checkout_not_found st0 ⟨"zz", "a@b.com"⟩ "1000.5" "now" true (Or.inl (by decide))⟩

/-- C5: for every token such that no stored order's `download_url` equals
`"/download/" ++ token` (exact string comparison), `download` fails with the
404 "Invalid token" error and the store is unchanged. -/
theorem C5_download_invalid_token (st : Store) (token : String)
    (h : ∀ o ∈ st.orders, o.download_url ≠ "/download/" ++ token) :
    download st token = (st, .error (.http ⟨404, "Invalid token"⟩)) := by
  have hfind : st.orders.find? (fun o => o.download_url == "/download/" ++ token) = none := by
    rw [List.find?_eq_none]
    intro o ho
    simpa using h o ho
  unfold download
  rw [hfind]

/-- Witness for C5: a never-issued token against the concrete store. -/
theorem C5_download_invalid_token_witness :
    (∀ o ∈ st0.orders, o.download_url ≠ "/download/" ++ "deadbeef") ∧
    download st0 "deadbeef" = (st0, .error (.http ⟨404, "Invalid token"⟩)) :=
  ⟨by decide, C5_download_invalid_token st0 "deadbeef" (by decide)⟩

/-- C6: `download` is read-only — the store it returns is the store it was
given, so the token is not consumed — and calling it again on that store
with the same token returns the same result. -/
theorem C6_download_readonly_idempotent (st : Store) (token : String) :
    (download st token).1 = st ∧
    (download ((download st token).1) token).2 = (download st token).2 := by
  refine ⟨download_fst st token, ?_⟩
  rw [download_fst]

/-- C9: a token matching a stored order whose referenced product is absent
from the store makes `download` fail with the 404 "Product missing" error, an
error distinct from the unknown-token "Invalid token" error. -/
theorem C9_download_product_missing (st : Store) (token : String) (o : Order) (k : String)
    (h1 : st.orders.find? (fun o2 => o2.download_url == "/download/" ++ token) = some o)
    (h2 : parseOid o.product_id = some k)
    (h3 : st.findProductByOid k = none) :
    download st token = (st, .error (.http ⟨404, "Product missing"⟩)) ∧
    Failure.http ⟨404, "Product missing"⟩ ≠ Failure.http ⟨404, "Invalid token"⟩ := by
  constructor
  · simp only [download, h1, h2, h3]
  · decide

/-- C1: for a product present in the store and a non-empty buyer email,
`checkout` succeeds, and the token embedded in the returned `download_url`
resolves through `download` (on the post-checkout store) to exactly that
product's `file_url`.  The freshness hypothesis — no pre-existing order
already carries the new `download_url` — rules out the unreachable-in-
practice case of a pre-existing SHA-256 token collision, under which
`find_one` would return the older order first. -/
theorem C1_checkout_download_roundtrip (st : Store) (p : CheckoutIn) (t n : String)
    (k : String) (prod : Product)
    (hfind : st.findProductByIdStr p.product_id = some (k, prod))
    (_hmail : p.buyer_email ≠ "")
    (hfresh : ∀ o ∈ st.orders,
      o.download_url ≠
        "/download/" ++ tokenOf (invoiceOf p.buyer_email t p.product_id) p.buyer_email) :
    (checkout st p t n true).2 =
      Except.ok
        ⟨Nat.repr st.nextOrderId, invoiceOf p.buyer_email t p.product_id,
         "/download/" ++ tokenOf (invoiceOf p.buyer_email t p.product_id) p.buyer_email⟩ ∧
    (download (checkout st p t n true).1
        (tokenOf (invoiceOf p.buyer_email t p.product_id) p.buyer_email)).2 =
      Except.ok prod.file_url := by
  obtain ⟨hp, hk⟩ := findProductByIdStr_eq hfind
  have hpk : parseOid k = some k := parseOid_idem hp
  refine ⟨checkout_found_ok st p t n k prod hfind, ?_⟩
  rw [checkout_found_fst st p t n true k prod hfind]
  have hnone : st.orders.find?
      (fun o => o.download_url ==
        "/download/" ++ tokenOf (invoiceOf p.buyer_email t p.product_id) p.buyer_email) =
      none := by
    rw [List.find?_eq_none]
    intro o ho
    simpa using hfresh o ho
  have hmatch : (st.orders ++ [mkOrder k prod p t n]).find?
      (fun o => o.download_url ==
        "/download/" ++ tokenOf (invoiceOf p.buyer_email t p.product_id) p.buyer_email) =
      some (mkOrder k prod p t n) := by
    rw [find?_append_none _ _ _ hnone]
    exact List.find?_cons_of_pos _ (by simp [mkOrder])
  have hk2 : st.products.find? (fun q => q.1 == k) = some (k, prod) := hk
  simp only [download, hmatch, mkOrder_product_id, hpk, Store.findProductByOid, hk2]

/-- Witness for C1 at the concrete store, email "a@b.com", product pid0. -/
theorem C1_checkout_download_roundtrip_witness :
    st0.findProductByIdStr payload0.product_id = some (pid0, prod0) ∧
    payload0.buyer_email ≠ "" ∧
    (∀ o ∈ st0.orders,
      o.download_url ≠
        "/download/" ++
          tokenOf (invoiceOf payload0.buyer_email "1000.5" payload0.product_id)
            payload0.buyer_email) ∧
    ((checkout st0 payload0 "1000.5" "now" true).2 =
        Except.ok
          ⟨Nat.repr st0.nextOrderId,
           invoiceOf payload0.buyer_email "1000.5" payload0.product_id,
           "/download/" ++
             tokenOf (invoiceOf payload0.buyer_email "1000.5" payload0.product_id)
               payload0.buyer_email⟩ ∧
      (download (checkout st0 payload0 "1000.5" "now" true).1
          (tokenOf (invoiceOf payload0.buyer_email "1000.5" payload0.product_id)
            payload0.buyer_email)).2 =
        Except.ok prod0.file_url) :=
  ⟨by decide, by decide, by decide,
   C1_checkout_download_roundtrip st0 payload0 "1000.5" "now" pid0 prod0
     (by decide) (by decide) (by decide)⟩

/-- C4: the order written by a successful `checkout` snapshots the product —
`product_title` is the product's title, `amount` its price, `currency` the
constant "USD" — and no core operation modifies an existing order:
`checkout` only appends to the order collection and `download` returns the
store unchanged. -/
theorem C4_order_snapshot (st : Store) (p : CheckoutIn) (t n : String) (b : Bool)
    (k : String) (prod : Product)
    (hfind : st.findProductByIdStr p.product_id = some (k, prod)) :
    (∃ o : Order, (checkout st p t n b).1.orders = st.orders ++ [o] ∧
      o.product_title = prod.title ∧ o.amount = prod.price ∧ o.currency = "USD") ∧
    ∀ st2 tok, (download st2 tok).1 = st2 := by
  refine ⟨⟨mkOrder k prod p t n, ?_, rfl, rfl, rfl⟩, fun st2 tok => download_fst st2 tok⟩
  rw [checkout_found_fst st p t n b k prod hfind]

/-- Witness for C4 at the concrete store. -/
theorem C4_order_snapshot_witness :
    st0.findProductByIdStr payload0.product_id = some (pid0, prod0) ∧
    ((∃ o : Order, (checkout st0 payload0 "1000.5" "now" true).1.orders = st0.orders ++ [o] ∧
        o.product_title = prod0.title ∧ o.amount = prod0.price ∧ o.currency = "USD") ∧
      ∀ st2 tok, (download st2 tok).1 = st2) :=
  ⟨by decide, C4_order_snapshot st0 payload0 "1000.5" "now" true pid0 prod0 (by decide)⟩

/-- C7 (behaviour actually implemented): when the notification dispatch
raises after the order insert, the order is indeed kept — but the exception
propagates out of `checkout`, so the caller sees an error instead of the
`{id, invoice_number, download_url}` response the claim requires. -/
theorem C7_notify_failure_propagates (st : Store) (p : CheckoutIn) (t n : String)
    (k : String) (prod : Product)
    (hfind : st.findProductByIdStr p.product_id = some (k, prod)) :
    (checkout st p t n false).1.orders = st.orders ++ [mkOrder k prod p t n] ∧
    (checkout st p t n false).2 = Except.error (.raised "send_email") := by
  refine ⟨?_, checkout_found_err st p t n k prod hfind⟩
  rw [checkout_found_fst st p t n false k prod hfind]

/-- Witness for C7: the concrete checkout with a raising notifier. -/
theorem C7_notify_failure_propagates_witness :
    st0.findProductByIdStr payload0.product_id = some (pid0, prod0) ∧
    ((checkout st0 payload0 "1000.5" "now" false).1.orders =
        st0.orders ++ [mkOrder pid0 prod0 payload0 "1000.5" "now"] ∧
      (checkout st0 payload0 "1000.5" "now" false).2 =
        Except.error (.raised "send_email")) :=
  ⟨by decide,
   C7_notify_failure_propagates st0 payload0 "1000.5" "now" pid0 prod0 (by decide)⟩

/-- C3 (amended): for every successful `checkout`, the returned
`invoice_number` is the first 10 hex characters, uppercased, of SHA-256 over
the `"-"`-joined seed `buyer_email ++ "-" ++ t ++ "-" ++ product_id`, the
token is the full 64-character hex SHA-256 of `invoice_number ++ "-" ++
buyer_email`, and `download_url = "/download/" ++ token`. -/
theorem C3_derivations (st : Store) (p : CheckoutIn) (t n : String) (out : OrderOut)
    (h : (checkout st p t n true).2 = .ok out) :
    out.invoice_number = invoiceOf p.buyer_email t p.product_id ∧
    out.download_url =
      "/download/" ++ tokenOf (invoiceOf p.buyer_email t p.product_id) p.buyer_email ∧
    (tokenOf (invoiceOf p.buyer_email t p.product_id) p.buyer_email).data.length = 64 := by
  cases hfind : st.findProductByIdStr p.product_id with
  | none =>
      rw [checkout_notfound_eq st p t n true hfind] at h
      exact Except.noConfusion h
  | some kp =>
      obtain ⟨k, prod⟩ := kp
      rw [checkout_found_ok st p t n k prod hfind] at h
      injection h with h
      subst h
      exact ⟨rfl, rfl, sha256hex_data_length _⟩

/-- Witness for C3 (amended) at the concrete store, with the hash values
evaluated. -/
theorem C3_derivations_witness :
    (checkout st0 payload0 "1000.5" "now" true).2 =
      Except.ok ⟨"0", "D7D043807E",
        "/download/e5aa004d312d2059b1dd0332d6b9ffcdb0a72402e17d0f8e32e588027c522b76"⟩ ∧
    ((OrderOut.mk "0" "D7D043807E"
          "/download/e5aa004d312d2059b1dd0332d6b9ffcdb0a72402e17d0f8e32e588027c522b76").invoice_number =
        invoiceOf payload0.buyer_email "1000.5" payload0.product_id ∧
      (OrderOut.mk "0" "D7D043807E"
          "/download/e5aa004d312d2059b1dd0332d6b9ffcdb0a72402e17d0f8e32e588027c522b76").download_url =
        "/download/" ++
          tokenOf (invoiceOf payload0.buyer_email "1000.5" payload0.product_id) payload0.buyer_email ∧
      (tokenOf (invoiceOf payload0.buyer_email "1000.5" payload0.product_id)
          payload0.buyer_email).data.length = 64) :=
  ⟨by decide,
   C3_derivations st0 payload0 "1000.5" "now"
     ⟨"0", "D7D043807E",
      "/download/e5aa004d312d2059b1dd0332d6b9ffcdb0a72402e17d0f8e32e588027c522b76"⟩
     (by decide)⟩

/-- Counterexample to C3 as stated: at a concrete input the invoice number
`checkout` returns is NOT the truncated SHA-256 of the separator-free
concatenation `buyer_email ++ t ++ product_id` — the code hashes the
`"-"`-joined seed. -/
theorem C3_plain_concat_refuted :
    (checkout st0 payload0 "1000.5" "now" true).2 =
      Except.ok ⟨"0", invoiceOf "a@b.com" "1000.5" pid0,
        "/download/" ++ tokenOf (invoiceOf "a@b.com" "1000.5" pid0) "a@b.com"⟩ ∧
    invoiceOf "a@b.com" "1000.5" pid0 ≠ plainConcatInvoice "a@b.com" "1000.5" pid0 := by
  constructor
  · decide
  · decide

/-- C10: the order a `checkout` writes stores as `product_id` exactly the
matched product's stored key; that string parses back to itself as a store
key, so the unguarded `ObjectId` parse inside `download` cannot raise on
such an order — whenever `download` matches this order, its outcome is
either success or the 404 "Product missing" error, never the unhandled
`InvalidId` exception. -/
theorem C10_stored_ids_wellformed (st : Store) (p : CheckoutIn) (t n : String) (b : Bool)
    (k : String) (prod : Product)
    (hfind : st.findProductByIdStr p.product_id = some (k, prod)) :
    (checkout st p t n b).1.orders = st.orders ++ [mkOrder k prod p t n] ∧
    st.findProductByOid (mkOrder k prod p t n).product_id = some (k, prod) ∧
    parseOid (mkOrder k prod p t n).product_id = some (mkOrder k prod p t n).product_id ∧
    ∀ st2 tok,
      st2.orders.find? (fun o => o.download_url == "/download/" ++ tok) =
          some (mkOrder k prod p t n) →
      (download st2 tok).2 = Except.error (.http ⟨404, "Product missing"⟩) ∨
      ∃ fu, (download st2 tok).2 = Except.ok fu := by
  obtain ⟨hp, hk⟩ := findProductByIdStr_eq hfind
  have hpk : parseOid k = some k := parseOid_idem hp
  refine ⟨?_, hk, hpk, ?_⟩
  · rw [checkout_found_fst st p t n b k prod hfind]
  · intro st2 tok hmatch
    cases h2 : st2.findProductByOid k with
    | none =>
        left
        simp only [download, hmatch, mkOrder, hpk, h2]
    | some q =>
        right
        refine ⟨q.2.file_url, ?_⟩
        simp only [download, hmatch, mkOrder, hpk, h2]

/-- Witness for C10 at the concrete store. -/
theorem C10_stored_ids_wellformed_witness :
    st0.findProductByIdStr payload0.product_id = some (pid0, prod0) ∧
    ((checkout st0 payload0 "1000.5" "now" true).1.orders =
        st0.orders ++ [mkOrder pid0 prod0 payload0 "1000.5" "now"] ∧
      st0.findProductByOid (mkOrder pid0 prod0 payload0 "1000.5" "now").product_id =
        some (pid0, prod0) ∧
      parseOid (mkOrder pid0 prod0 payload0 "1000.5" "now").product_id =
        some (mkOrder pid0 prod0 payload0 "1000.5" "now").product_id ∧
      ∀ st2 tok,
        st2.orders.find? (fun o => o.download_url == "/download/" ++ tok) =
            some (mkOrder pid0 prod0 payload0 "1000.5" "now") →
        (download st2 tok).2 = Except.error (.http ⟨404, "Product missing"⟩) ∨
        ∃ fu, (download st2 tok).2 = Except.ok fu) :=
  ⟨by decide,
   C10_stored_ids_wellformed st0 payload0 "1000.5" "now" true pid0 prod0 (by decide)⟩

/-- Counterexample to C8 as stated: the invoice number keeps only 10 hex
characters of the digest, so among more than `16 ^ 10` distinct time
readings two must collide — there exist two checkouts of the same product
and buyer email at different times whose orders carry the SAME invoice
number and the SAME token.  (The spec itself concedes `invoice_number` is
"not enforced unique by construction".) -/
theorem C8_collision_exists :
    ∃ t1 t2 : String, t1 ≠ t2 ∧
      ∃ o1 o2 : OrderOut,
        (checkout st0 payload0 t1 "now" true).2 = Except.ok o1 ∧
        (checkout st0 payload0 t2 "now" true).2 = Except.ok o2 ∧
        o1.invoice_number = o2.invoice_number ∧ o1.download_url = o2.download_url := by
  have hb : ∀ i : Nat, decodeHex (invoiceOf "a@b.com" (timeSaltN i) pid0).data < 16 ^ 10 := by
    intro i
    have h := foldl_hex_lt (invoiceOf "a@b.com" (timeSaltN i) pid0).data
      (invoiceOf_chars _ _ _)
    rwa [invoiceOf_length] at h
  obtain ⟨i, j, hij, hfe⟩ :=
    Fintype.exists_ne_map_eq_of_card_lt
      (fun i : Fin (16 ^ 10 + 1) =>
        (⟨decodeHex (invoiceOf "a@b.com" (timeSaltN i.val) pid0).data, hb i.val⟩ :
          Fin (16 ^ 10)))
      (by rw [Fintype.card_fin, Fintype.card_fin]; omega)
  have hd : decodeHex (invoiceOf "a@b.com" (timeSaltN i.val) pid0).data =
      decodeHex (invoiceOf "a@b.com" (timeSaltN j.val) pid0).data :=
    congrArg Fin.val hfe
  have hinv : invoiceOf "a@b.com" (timeSaltN i.val) pid0 =
      invoiceOf "a@b.com" (timeSaltN j.val) pid0 :=
    string_eq_of_data
      (foldl_hex_inj _ _ (by rw [invoiceOf_length, invoiceOf_length])
        (invoiceOf_chars _ _ _) (invoiceOf_chars _ _ _) hd)
  refine ⟨timeSaltN i.val, timeSaltN j.val,
    fun he => hij (Fin.ext (timeSaltN_inj he)), ?_⟩
  refine ⟨⟨Nat.repr st0.nextOrderId, invoiceOf "a@b.com" (timeSaltN i.val) pid0,
      "/download/" ++ tokenOf (invoiceOf "a@b.com" (timeSaltN i.val) pid0) "a@b.com"⟩,
    ⟨Nat.repr st0.nextOrderId, invoiceOf "a@b.com" (timeSaltN j.val) pid0,
      "/download/" ++ tokenOf (invoiceOf "a@b.com" (timeSaltN j.val) pid0) "a@b.com"⟩,
    checkout_found_ok st0 payload0 _ "now" pid0 prod0 (by decide),
    checkout_found_ok st0 payload0 _ "now" pid0 prod0 (by decide),
    hinv, by rw [hinv]⟩

/-- C8 (amended): two successful checkouts with identical `(product_id,
buyer_email)` at times `t1 ≠ t2` produce orders with different invoice
numbers and different tokens PROVIDED the truncated seed hashes differ and
the token hashes differ — the time-salted derivation guarantees inequality
only up to SHA-256 (truncation) collisions. -/
theorem C8_time_salted_distinct (st : Store) (p : CheckoutIn) (t1 t2 n1 n2 : String)
    (k : String) (prod : Product)
    (hfind : st.findProductByIdStr p.product_id = some (k, prod))
    (hinv : invoiceOf p.buyer_email t1 p.product_id ≠ invoiceOf p.buyer_email t2 p.product_id)
    (htok : tokenOf (invoiceOf p.buyer_email t1 p.product_id) p.buyer_email ≠
            tokenOf (invoiceOf p.buyer_email t2 p.product_id) p.buyer_email) :
    ∃ o1 o2 : OrderOut,
      (checkout st p t1 n1 true).2 = Except.ok o1 ∧
      (checkout st p t2 n2 true).2 = Except.ok o2 ∧
      o1.invoice_number ≠ o2.invoice_number ∧ o1.download_url ≠ o2.download_url := by
  refine ⟨_, _, checkout_found_ok st p t1 n1 k prod hfind,
    checkout_found_ok st p t2 n2 k prod hfind, hinv, ?_⟩
  intro he
  apply htok
  apply string_eq_of_data
  have h2 := congrArg String.data he
  rw [String.data_append, String.data_append] at h2
  exact List.append_cancel_left h2

/-- Witness for C8 (amended): two concrete time readings whose truncated
seed hashes differ and whose token hashes differ. -/
theorem C8_time_salted_distinct_witness :
    st0.findProductByIdStr payload0.product_id = some (pid0, prod0) ∧
    invoiceOf payload0.buyer_email "100.0" payload0.product_id ≠
      invoiceOf payload0.buyer_email "100.1" payload0.product_id ∧
    tokenOf (invoiceOf payload0.buyer_email "100.0" payload0.product_id)
        payload0.buyer_email ≠
      tokenOf (invoiceOf payload0.buyer_email "100.1" payload0.product_id)
        payload0.buyer_email ∧
    ∃ o1 o2 : OrderOut,
      (checkout st0 payload0 "100.0" "n1" true).2 = Except.ok o1 ∧
      (checkout st0 payload0 "100.1" "n2" true).2 = Except.ok o2 ∧
      o1.invoice_number ≠ o2.invoice_number ∧ o1.download_url ≠ o2.download_url :=
  ⟨by decide, by decide, by decide,
   C8_time_salted_distinct st0 payload0 "100.0" "100.1" "n1" "n2" pid0 prod0
     (by decide) (by decide) (by decide)⟩

/-- Witness for C9: the concrete store whose only order references a product
that is no longer present. -/
theorem C9_download_product_missing_witness :
    st9.orders.find? (fun o2 => o2.download_url == "/download/" ++ "abc") = some ord9 ∧
    parseOid ord9.product_id = some pid0 ∧
    st9.findProductByOid pid0 = none ∧
    (download st9 "abc" = (st9, .error (.http ⟨404, "Product missing"⟩)) ∧
      Failure.http ⟨404, "Product missing"⟩ ≠ Failure.http ⟨404, "Invalid token"⟩) :=
  ⟨by decide, by decide, by decide,
   C9_download_product_missing st9 "abc" ord9 pid0 (by decide) (by decide) (by decide)⟩

end DigitalGoods
